import Mathlib

/-!
Verification of the aiter forward-attention dispatch facade
(`csrc/include/mha_fwd.h`).

The header defines two trait structures (`aiter::mha_fwd_traits`,
`aiter::mha_fwd_splitkv_traits`) that narrow the upstream FMHA trait
space by hard-coding `is_v_rowmajor = true` and
`do_fp8_static_quant = false`, three argument-bundle type aliases, and
three dispatch entry points.  The trait constructors and the aliases
are embedded directly from the header; the dispatcher bodies are not
part of the visible source and are modelled from the specification.
-/

namespace Aiter

/-- Mask kinds: the closed set from the spec's data model
(none, causal-top-left, causal-bottom-right, generic window),
matching the upstream `mask_enum`. -/
inductive mask_enum where
  | no_mask
  | mask_top_left
  | mask_bottom_right
  | window_generic
deriving DecidableEq, Repr

/-- Bias kinds: the closed set from the spec's data model
(none, elementwise additive, ALiBi positional), matching the upstream
`bias_enum`. -/
inductive bias_enum where
  | no_bias
  | elementwise_bias
  | alibi
deriving DecidableEq, Repr

/-- Modelled from the spec: `mask_info` (defined in `mask.hpp`, which is
not under the visible source) is "a small value holding
\x7bmask_kind, left_window, right_window\x7d". -/
structure mask_info where
  type : mask_enum
  left : Int
  right : Int
deriving DecidableEq, Repr

/-- The upstream FMHA forward trait (`fmha_fwd_traits` from
`fmha_fwd.hpp`): the full field list the facade's constructor
populates positionally, in declaration order. -/
structure fmha_fwd_traits where
  hdim_q : Int
  hdim_v : Int
  data_type : String
  is_group_mode : Bool
  is_v_rowmajor : Bool
  has_logits_soft_cap : Bool
  mask_type : mask_enum
  bias_type : bias_enum
  has_lse : Bool
  has_dropout : Bool
  do_fp8_static_quant : Bool
deriving DecidableEq, Repr

/-- The upstream split-KV forward trait (`fmha_fwd_splitkv_traits`):
the same shape as `fmha_fwd_traits` without the `has_dropout` field. -/
structure fmha_fwd_splitkv_traits where
  hdim_q : Int
  hdim_v : Int
  data_type : String
  is_group_mode : Bool
  is_v_rowmajor : Bool
  has_logits_soft_cap : Bool
  mask_type : mask_enum
  bias_type : bias_enum
  has_lse : Bool
  do_fp8_static_quant : Bool
deriving DecidableEq, Repr

/-- `aiter::mha_fwd_traits` constructor (`mha_fwd.h`, lines 10-34):
forwards every parameter to the base positionally, inserting
`true` for `is_v_rowmajor` and `false` for `do_fp8_static_quant`,
and projecting the mask descriptor to its `type` field. -/
def mha_fwd_traits (head_size_q head_size_v : Int) (dtype : String)
    (is_group_mode has_logits_soft_cap : Bool) (mask : mask_info)
    (bias_type : bias_enum) (has_lse has_dropout : Bool) :
    fmha_fwd_traits :=
  { hdim_q := head_size_q
    hdim_v := head_size_v
    data_type := dtype
    is_group_mode := is_group_mode
    is_v_rowmajor := true
    has_logits_soft_cap := has_logits_soft_cap
    mask_type := mask.type
    bias_type := bias_type
    has_lse := has_lse
    has_dropout := has_dropout
    do_fp8_static_quant := false }

/-- `aiter::mha_fwd_splitkv_traits` constructor (`mha_fwd.h`,
lines 36-58): same as `mha_fwd_traits` but with no `has_dropout`
parameter, targeting the split-KV base trait. -/
def mha_fwd_splitkv_traits (head_size_q head_size_v : Int)
    (dtype : String) (is_group_mode has_logits_soft_cap : Bool)
    (mask : mask_info) (bias_type : bias_enum) (has_lse : Bool) :
    fmha_fwd_splitkv_traits :=
  { hdim_q := head_size_q
    hdim_v := head_size_v
    data_type := dtype
    is_group_mode := is_group_mode
    is_v_rowmajor := true
    has_logits_soft_cap := has_logits_soft_cap
    mask_type := mask.type
    bias_type := bias_type
    has_lse := has_lse
    do_fp8_static_quant := false }

/-- Modelled from the spec: the stream/timing configuration
(`ck_tile::stream_config`) is "carried through verbatim: stream handle,
warmup repetition count, timed repetition count, timing-enabled flag". -/
structure stream_config where
  stream_id : Nat
  time_kernel : Bool
  cold_niters : Nat
  nrepeat : Nat
deriving DecidableEq, Repr

/-- Modelled from the spec: the runtime argument bundle
(`fmha_fwd_args` from the upstream library, opaque to the facade)
exposing only what the dispatcher reads: the head sizes keyed into the
trait, the dropout probability and soft-cap value from which the
dispatcher derives `has_dropout` and `has_logits_soft_cap` (non-zero
means required), and an opaque payload standing for the pointers,
strides, scales and seeds that are passed through unchanged. -/
structure fmha_fwd_args where
  hdim_q : Int
  hdim_v : Int
  p_drop : Rat
  logits_soft_cap : Rat
  payload : List Nat
deriving DecidableEq, Repr

/-- Modelled from the spec: the split-KV argument bundle
(`fmha_fwd_splitkv_args`), which additionally "carries a split count
and a partial-output buffer"; split-KV kernels never apply dropout, so
no dropout probability participates in dispatch. -/
structure fmha_fwd_splitkv_args where
  hdim_q : Int
  hdim_v : Int
  logits_soft_cap : Rat
  num_splits : Nat
  payload : List Nat
deriving DecidableEq, Repr

/-- Modelled from the spec: the batch-prefill argument bundle
(`fmha_batch_prefill_args`), whose "distinct argument bundle shape
accommodates per-request cumulative-offset arrays for both Q and KV"
while keeping the same dispatch contract as the forward path. -/
structure fmha_batch_prefill_args where
  hdim_q : Int
  hdim_v : Int
  p_drop : Rat
  logits_soft_cap : Rat
  seqstart_q : List Nat
  seqstart_k : List Nat
  payload : List Nat
deriving DecidableEq, Repr

/-- `aiter::mha_fwd_args` is an exact alias of the upstream bundle
(`using mha_fwd_args = fmha_fwd_args;`, `mha_fwd.h` line 60). -/
def mha_fwd_args := fmha_fwd_args

/-- `aiter::mha_fwd_splitkv_args` is an exact alias of the upstream
bundle (`mha_fwd.h` line 61). -/
def mha_fwd_splitkv_args := fmha_fwd_splitkv_args

/-- `aiter::mha_batch_prefill_args` is an exact alias of the upstream
bundle (`mha_fwd.h` line 62). -/
def mha_batch_prefill_args := fmha_batch_prefill_args

/-- Modelled from the spec: a compiled kernel specialization, i.e. a
launchable entry of the build-time registry.  Its device-side elapsed
time and the output-buffer contents it writes abstract the external
kernel body. -/
structure Kernel where
  id : Nat
  elapsed_ms : Rat
  out : List Nat
deriving DecidableEq, Repr

/-- Modelled from the spec: the caller-observable state around a
dispatch call — the caller's output buffers and the sequence of
launches submitted to device streams. -/
structure World where
  buffers : List Nat
  launches : List (Nat × Nat)
deriving DecidableEq, Repr

/-- Modelled from the spec: launching a kernel on the supplied stream
writes the caller's output buffers through the kernel and records one
submission (stream id, kernel id) on that stream. -/
def runKernel (k : Kernel) (stream_id : Nat) (w : World) : World :=
  { buffers := k.out, launches := w.launches ++ [(stream_id, k.id)] }

/-- Modelled from the spec: specialization lookup is an exact match on
the trait discriminant tuple — "unique exact match or miss", with no
fallback to a near-matching specialization. -/
def lookup_spec {α : Type} [DecidableEq α]
    (reg : List (α × Kernel)) (t : α) : Option Kernel :=
  (List.find? (fun p => decide (p.1 = t)) reg).map Prod.snd

/-- Modelled from the spec: everything a dispatch call makes
observable — the returned elapsed-time value, the post-call world, the
caller's argument bundle and stream configuration as seen after the
call, and the bundle handed to the kernel library (if any). -/
structure DispatchResult (argT : Type) where
  ret : Rat
  world : World
  args_after : argT
  sc_after : stream_config
  forwarded : Option argT
deriving Repr

/-- The registry key the forward dispatcher builds via the facade
constructor: head sizes from the bundle, `has_logits_soft_cap` and
`has_dropout` derived from the bundle (non-zero means required), the
remaining discriminants from the call parameters. -/
def fwd_key (args : fmha_fwd_args) (q_dtype_str : String)
    (is_group_mode : Bool) (mask : mask_info) (bias_type : bias_enum)
    (has_lse : Bool) : fmha_fwd_traits :=
  mha_fwd_traits args.hdim_q args.hdim_v q_dtype_str is_group_mode
    (args.logits_soft_cap != 0) mask bias_type has_lse
    (args.p_drop != 0)

/-- The registry key the split-KV dispatcher builds: like `fwd_key`
but through the split-KV constructor, with no dropout discriminant. -/
def splitkv_key (args : fmha_fwd_splitkv_args) (q_dtype_str : String)
    (is_group_mode : Bool) (mask : mask_info) (bias_type : bias_enum)
    (has_lse : Bool) : fmha_fwd_splitkv_traits :=
  mha_fwd_splitkv_traits args.hdim_q args.hdim_v q_dtype_str
    is_group_mode (args.logits_soft_cap != 0) mask bias_type has_lse

/-- The registry key the batch-prefill dispatcher builds; same
contract as `fwd_key` over the prefill bundle. -/
def prefill_key (args : fmha_batch_prefill_args) (q_dtype_str : String)
    (is_group_mode : Bool) (mask : mask_info) (bias_type : bias_enum)
    (has_lse : Bool) : fmha_fwd_traits :=
  mha_fwd_traits args.hdim_q args.hdim_v q_dtype_str is_group_mode
    (args.logits_soft_cap != 0) mask bias_type has_lse
    (args.p_drop != 0)

/-- Modelled from the spec: the body of `aiter::mha_fwd` (declared at
`mha_fwd.h` lines 64-70, defined outside the visible source).  Per
§4.3/§7: derive `has_dropout` and `has_logits_soft_cap` from the
bundle, build the trait via the facade constructor, look up the
specialization; on miss return the negative sentinel leaving buffers
and stream untouched; on hit launch on the caller's stream and return
elapsed milliseconds when timing is enabled, else zero. -/
def mha_fwd (reg : List (fmha_fwd_traits × Kernel)) (args : fmha_fwd_args)
    (sc : stream_config) (q_dtype_str : String) (is_group_mode : Bool)
    (mask : mask_info) (bias_type : bias_enum) (has_lse : Bool)
    (w : World) : DispatchResult fmha_fwd_args :=
  match lookup_spec reg (fwd_key args q_dtype_str is_group_mode mask
      bias_type has_lse) with
  | none =>
      { ret := -1, world := w, args_after := args, sc_after := sc,
        forwarded := none }
  | some k =>
      { ret := if sc.time_kernel then k.elapsed_ms else 0
        world := runKernel k sc.stream_id w
        args_after := args
        sc_after := sc
        forwarded := some args }

/-- Modelled from the spec: the body of `aiter::mha_fwd_splitkv`
(declared at `mha_fwd.h` lines 72-78).  Same shape as `mha_fwd`
except the trait omits `has_dropout` and the lookup runs against the
separate split-KV specialization registry. -/
def mha_fwd_splitkv (reg : List (fmha_fwd_splitkv_traits × Kernel))
    (args : fmha_fwd_splitkv_args) (sc : stream_config)
    (q_dtype_str : String) (is_group_mode : Bool) (mask : mask_info)
    (bias_type : bias_enum) (has_lse : Bool) (w : World) :
    DispatchResult fmha_fwd_splitkv_args :=
  match lookup_spec reg (splitkv_key args q_dtype_str is_group_mode
      mask bias_type has_lse) with
  | none =>
      { ret := -1, world := w, args_after := args, sc_after := sc,
        forwarded := none }
  | some k =>
      { ret := if sc.time_kernel then k.elapsed_ms else 0
        world := runKernel k sc.stream_id w
        args_after := args
        sc_after := sc
        forwarded := some args }

/-- Modelled from the spec: the body of `aiter::mha_batch_prefill`
(declared at `mha_fwd.h` lines 80-86).  §4.5: "Same dispatch contract
as §4.3" with its own argument bundle and its own specialization
registry. -/
def mha_batch_prefill (reg : List (fmha_fwd_traits × Kernel))
    (args : fmha_batch_prefill_args) (sc : stream_config)
    (q_dtype_str : String) (is_group_mode : Bool) (mask : mask_info)
    (bias_type : bias_enum) (has_lse : Bool) (w : World) :
    DispatchResult fmha_batch_prefill_args :=
  match lookup_spec reg (prefill_key args q_dtype_str is_group_mode
      mask bias_type has_lse) with
  | none =>
      { ret := -1, world := w, args_after := args, sc_after := sc,
        forwarded := none }
  | some k =>
      { ret := if sc.time_kernel then k.elapsed_ms else 0
        world := runKernel k sc.stream_id w
        args_after := args
        sc_after := sc
        forwarded := some args }

/-- Modelled from the spec: the closed dtype vocabulary the build
recognizes — "a short closed vocabulary identifying the element format
(fp16, bf16, and similar)"; every built specialization is keyed on one
of these. -/
def supported_dtypes : List String := ["fp16", "bf16"]

/-- A registry materialized at build time only contains traits whose
dtype tag is drawn from the recognized vocabulary. -/
abbrev BuiltFwdRegistry (reg : List (fmha_fwd_traits × Kernel)) : Prop :=
  ∀ p ∈ reg, p.1.data_type ∈ supported_dtypes

/-- Split-KV counterpart of `BuiltFwdRegistry`. -/
abbrev BuiltSplitkvRegistry
    (reg : List (fmha_fwd_splitkv_traits × Kernel)) : Prop :=
  ∀ p ∈ reg, p.1.data_type ∈ supported_dtypes

/-- Numeric code of a mask kind, for hashing. -/
def mask_enum.code : mask_enum → Nat
  | .no_mask => 0
  | .mask_top_left => 1
  | .mask_bottom_right => 2
  | .window_generic => 3

/-- Numeric code of a bias kind, for hashing. -/
def bias_enum.code : bias_enum → Nat
  | .no_bias => 0
  | .elementwise_bias => 1
  | .alibi => 2

/-- Numeric code of a boolean, for hashing. -/
def boolCode (b : Bool) : Nat := if b then 1 else 0

/-- Numeric code of an integer, for hashing. -/
def intCode (i : Int) : Nat := 2 * i.natAbs + boolCode (decide (i < 0))

/-- Numeric code of a string, for hashing. -/
def strCode (s : String) : Nat :=
  (s.data.map Char.toNat).foldl (fun a c => a * 257 + c + 1) 7

/-- Hash of a forward trait: a deterministic fold over all fields,
standing for the registry's hash of the discriminant tuple. -/
def traitHash (t : fmha_fwd_traits) : Nat :=
  [intCode t.hdim_q, intCode t.hdim_v, strCode t.data_type,
   boolCode t.is_group_mode, boolCode t.is_v_rowmajor,
   boolCode t.has_logits_soft_cap, t.mask_type.code, t.bias_type.code,
   boolCode t.has_lse, boolCode t.has_dropout,
   boolCode t.do_fp8_static_quant].foldl
    (fun a x => a * 1000003 + x + 1) 11

/-- Hash of a split-KV trait, analogous to `traitHash`. -/
def splitkvTraitHash (t : fmha_fwd_splitkv_traits) : Nat :=
  [intCode t.hdim_q, intCode t.hdim_v, strCode t.data_type,
   boolCode t.is_group_mode, boolCode t.is_v_rowmajor,
   boolCode t.has_logits_soft_cap, t.mask_type.code, t.bias_type.code,
   boolCode t.has_lse, boolCode t.do_fp8_static_quant].foldl
    (fun a x => a * 1000003 + x + 1) 11

/-- A successful lookup returns an entry actually present in the
registry, keyed exactly by the queried trait. -/
theorem lookup_spec_mem {α : Type} [DecidableEq α] :
    ∀ {reg : List (α × Kernel)} {t : α} {k : Kernel},
    lookup_spec reg t = some k → (t, k) ∈ reg := by
  intro reg
  induction reg with
  | nil => intro t k h; simp [lookup_spec] at h
  | cons p ps ih =>
    intro t k h
    by_cases hp : p.1 = t
    · rw [lookup_spec, List.find?_cons_of_pos _ (by simp [hp])] at h
      simp at h
      have hpk : p = (t, k) := by
        cases p with
        | mk a b => simp at hp h; simp [hp, h]
      rw [hpk] at *
      exact List.mem_cons_self _ _
    · rw [lookup_spec, List.find?_cons_of_neg _ (by simp [hp])] at h
      exact List.mem_cons_of_mem _ (ih h)

/-- A trait absent from the registry's key column always misses. -/
theorem lookup_spec_eq_none {α : Type} [DecidableEq α] :
    ∀ {reg : List (α × Kernel)} {t : α},
    t ∉ reg.map Prod.fst → lookup_spec reg t = none := by
  intro reg
  induction reg with
  | nil => intro t _; rfl
  | cons p ps ih =>
    intro t h
    simp only [List.map_cons, List.mem_cons, not_or] at h
    have hne : ¬p.1 = t := fun hh => h.1 hh.symm
    rw [lookup_spec, List.find?_cons_of_neg _ (by simp [hne])]
    exact ih h.2

/-- On a registry whose key column has no duplicates, a present entry
is found exactly. -/
theorem lookup_spec_of_mem {α : Type} [DecidableEq α] :
    ∀ {reg : List (α × Kernel)} {t : α} {k : Kernel},
    (t, k) ∈ reg → (reg.map Prod.fst).Nodup →
    lookup_spec reg t = some k := by
  intro reg
  induction reg with
  | nil => intro t k hmem _; cases hmem
  | cons p ps ih =>
    intro t k hmem hnd
    rcases List.mem_cons.mp hmem with h | h
    · rw [lookup_spec, List.find?_cons_of_pos _ (by simp [← h])]
      simp [← h]
    · have hnd' : p.1 ∉ ps.map Prod.fst ∧ (ps.map Prod.fst).Nodup := by
        rw [List.map_cons, List.nodup_cons] at hnd
        exact hnd
      have ht : t ∈ ps.map Prod.fst := by
        simpa using List.mem_map_of_mem Prod.fst h
      have hne : ¬p.1 = t := fun he => hnd'.1 (he ▸ ht)
      rw [lookup_spec, List.find?_cons_of_neg _ (by simp [hne])]
      exact ih h hnd'.2

/-- C1: for every input tuple, the constructed forward trait has
`is_v_rowmajor = true` and `do_fp8_static_quant = false`, and every
other field equals the corresponding input one-to-one, with the mask
contributing its kind field. -/
theorem C1_trait_canonicalization (hq hv : Int) (dt : String)
    (gm cap : Bool) (m : mask_info) (b : bias_enum) (lse dp : Bool) :
    (mha_fwd_traits hq hv dt gm cap m b lse dp).is_v_rowmajor = true ∧
    (mha_fwd_traits hq hv dt gm cap m b lse dp).do_fp8_static_quant = false ∧
    (mha_fwd_traits hq hv dt gm cap m b lse dp).hdim_q = hq ∧
    (mha_fwd_traits hq hv dt gm cap m b lse dp).hdim_v = hv ∧
    (mha_fwd_traits hq hv dt gm cap m b lse dp).data_type = dt ∧
    (mha_fwd_traits hq hv dt gm cap m b lse dp).is_group_mode = gm ∧
    (mha_fwd_traits hq hv dt gm cap m b lse dp).has_logits_soft_cap = cap ∧
    (mha_fwd_traits hq hv dt gm cap m b lse dp).mask_type = m.type ∧
    (mha_fwd_traits hq hv dt gm cap m b lse dp).bias_type = b ∧
    (mha_fwd_traits hq hv dt gm cap m b lse dp).has_lse = lse ∧
    (mha_fwd_traits hq hv dt gm cap m b lse dp).has_dropout = dp :=
  ⟨rfl, rfl, rfl, rfl, rfl, rfl, rfl, rfl, rfl, rfl, rfl⟩

/-- C2: the split-KV trait constructor takes the same parameters minus
`has_dropout`; its result has `is_v_rowmajor = true`,
`do_fp8_static_quant = false`, all remaining fields echo the inputs,
and the split-KV trait type is exhausted by those ten fields (so it
carries no `has_dropout` field). -/
theorem C2_splitkv_trait_canonicalization (hq hv : Int) (dt : String)
    (gm cap : Bool) (m : mask_info) (b : bias_enum) (lse : Bool) :
    (mha_fwd_splitkv_traits hq hv dt gm cap m b lse).is_v_rowmajor = true ∧
    (mha_fwd_splitkv_traits hq hv dt gm cap m b lse).do_fp8_static_quant = false ∧
    (mha_fwd_splitkv_traits hq hv dt gm cap m b lse).hdim_q = hq ∧
    (mha_fwd_splitkv_traits hq hv dt gm cap m b lse).hdim_v = hv ∧
    (mha_fwd_splitkv_traits hq hv dt gm cap m b lse).data_type = dt ∧
    (mha_fwd_splitkv_traits hq hv dt gm cap m b lse).is_group_mode = gm ∧
    (mha_fwd_splitkv_traits hq hv dt gm cap m b lse).has_logits_soft_cap = cap ∧
    (mha_fwd_splitkv_traits hq hv dt gm cap m b lse).mask_type = m.type ∧
    (mha_fwd_splitkv_traits hq hv dt gm cap m b lse).bias_type = b ∧
    (mha_fwd_splitkv_traits hq hv dt gm cap m b lse).has_lse = lse ∧
    (∀ t : fmha_fwd_splitkv_traits,
      t = ⟨t.hdim_q, t.hdim_v, t.data_type, t.is_group_mode,
           t.is_v_rowmajor, t.has_logits_soft_cap, t.mask_type,
           t.bias_type, t.has_lse, t.do_fp8_static_quant⟩) :=
  ⟨rfl, rfl, rfl, rfl, rfl, rfl, rfl, rfl, rfl, rfl, fun _ => rfl⟩

/-- C10: both trait constructors depend on the mask descriptor only
through its kind field: masks agreeing on `type` yield identical
traits regardless of their window values. -/
theorem C10_mask_windows_noninterference (hq hv : Int) (dt : String)
    (gm cap : Bool) (m1 m2 : mask_info) (b : bias_enum)
    (lse dp : Bool) (h : m1.type = m2.type) :
    mha_fwd_traits hq hv dt gm cap m1 b lse dp =
      mha_fwd_traits hq hv dt gm cap m2 b lse dp ∧
    mha_fwd_splitkv_traits hq hv dt gm cap m1 b lse =
      mha_fwd_splitkv_traits hq hv dt gm cap m2 b lse := by
  constructor <;> simp [mha_fwd_traits, mha_fwd_splitkv_traits, h]

/-- C10 witness: two generic-window masks with different left/right
windows produce identical forward and split-KV traits. -/
theorem C10_mask_windows_noninterference_witness :
    (⟨mask_enum.window_generic, 64, 0⟩ : mask_info) ≠
      ⟨mask_enum.window_generic, 7, 3⟩ ∧
    mha_fwd_traits 64 64 "fp16" false false
        ⟨mask_enum.window_generic, 64, 0⟩ bias_enum.no_bias true false =
      mha_fwd_traits 64 64 "fp16" false false
        ⟨mask_enum.window_generic, 7, 3⟩ bias_enum.no_bias true false ∧
    mha_fwd_splitkv_traits 64 64 "fp16" false false
        ⟨mask_enum.window_generic, 64, 0⟩ bias_enum.no_bias true =
      mha_fwd_splitkv_traits 64 64 "fp16" false false
        ⟨mask_enum.window_generic, 7, 3⟩ bias_enum.no_bias true := by
  refine ⟨by decide, ?_, ?_⟩
  · exact (C10_mask_windows_noninterference 64 64 "fp16" false false
      ⟨mask_enum.window_generic, 64, 0⟩ ⟨mask_enum.window_generic, 7, 3⟩
      bias_enum.no_bias true false rfl).1
  · exact (C10_mask_windows_noninterference 64 64 "fp16" false false
      ⟨mask_enum.window_generic, 64, 0⟩ ⟨mask_enum.window_generic, 7, 3⟩
      bias_enum.no_bias true false rfl).2

/-- If every key in the registry satisfies a string filter on some
projection and the queried key does not, the lookup misses. -/
theorem lookup_miss_of_key_filter {α : Type} [DecidableEq α]
    (f : α → String) {reg : List (α × Kernel)} {t : α}
    (hreg : ∀ p ∈ reg, f p.1 ∈ supported_dtypes)
    (h : f t ∉ supported_dtypes) : lookup_spec reg t = none := by
  cases hlk : lookup_spec reg t with
  | none => rfl
  | some k => exact absurd (hreg _ (lookup_spec_mem hlk)) h

/-- Sample forward bundle used by concrete witnesses. -/
def sampleArgs : fmha_fwd_args := ⟨64, 64, 0, 0, [1, 2]⟩

/-- Sample split-KV bundle used by concrete witnesses. -/
def sampleSplitkvArgs : fmha_fwd_splitkv_args := ⟨64, 64, 0, 4, [1, 2]⟩

/-- Sample batch-prefill bundle used by concrete witnesses. -/
def samplePrefillArgs : fmha_batch_prefill_args :=
  ⟨64, 64, 0, 0, [0, 3], [0, 5], [1]⟩

/-- Sample timing-enabled stream configuration. -/
def sampleSc : stream_config := ⟨0, true, 1, 3⟩

/-- Sample timing-disabled stream configuration. -/
def sampleScOff : stream_config := ⟨0, false, 1, 3⟩

/-- Sample mask descriptor (causal top-left). -/
def sampleMask : mask_info := ⟨mask_enum.mask_top_left, -1, 0⟩

/-- Sample pre-call world. -/
def sampleWorld : World := ⟨[0, 0], []⟩

/-- Sample kernel entry. -/
def sampleKernel : Kernel := ⟨5, 7, [9, 9]⟩

/-- Sample one-entry forward registry matching `sampleArgs`. -/
def sampleFwdReg : List (fmha_fwd_traits × Kernel) :=
  [(fwd_key sampleArgs "fp16" false sampleMask bias_enum.no_bias false,
    sampleKernel)]

/-- Sample one-entry split-KV registry matching `sampleSplitkvArgs`. -/
def sampleSplitkvReg : List (fmha_fwd_splitkv_traits × Kernel) :=
  [(splitkv_key sampleSplitkvArgs "fp16" false sampleMask
      bias_enum.no_bias false, sampleKernel)]

/-- Sample one-entry batch-prefill registry matching
`samplePrefillArgs`. -/
def samplePrefillReg : List (fmha_fwd_traits × Kernel) :=
  [(prefill_key samplePrefillArgs "fp16" false sampleMask
      bias_enum.no_bias false, sampleKernel)]

/-- C3: each of the three dispatch functions returns a negative
sentinel when no compiled specialization matches, and otherwise the
matched kernel's elapsed milliseconds when timing is enabled and zero
when it is disabled. -/
theorem C3_return_value_trichotomy
    (freg preg : List (fmha_fwd_traits × Kernel))
    (sreg : List (fmha_fwd_splitkv_traits × Kernel))
    (a1 : fmha_fwd_args) (a2 : fmha_fwd_splitkv_args)
    (a3 : fmha_batch_prefill_args) (sc : stream_config) (dt : String)
    (gm : Bool) (m : mask_info) (b : bias_enum) (lse : Bool)
    (w : World) :
    (lookup_spec freg (fwd_key a1 dt gm m b lse) = none →
      (mha_fwd freg a1 sc dt gm m b lse w).ret < 0) ∧
    (∀ k, lookup_spec freg (fwd_key a1 dt gm m b lse) = some k →
      (mha_fwd freg a1 sc dt gm m b lse w).ret =
        if sc.time_kernel then k.elapsed_ms else 0) ∧
    (lookup_spec sreg (splitkv_key a2 dt gm m b lse) = none →
      (mha_fwd_splitkv sreg a2 sc dt gm m b lse w).ret < 0) ∧
    (∀ k, lookup_spec sreg (splitkv_key a2 dt gm m b lse) = some k →
      (mha_fwd_splitkv sreg a2 sc dt gm m b lse w).ret =
        if sc.time_kernel then k.elapsed_ms else 0) ∧
    (lookup_spec preg (prefill_key a3 dt gm m b lse) = none →
      (mha_batch_prefill preg a3 sc dt gm m b lse w).ret < 0) ∧
    (∀ k, lookup_spec preg (prefill_key a3 dt gm m b lse) = some k →
      (mha_batch_prefill preg a3 sc dt gm m b lse w).ret =
        if sc.time_kernel then k.elapsed_ms else 0) := by
  refine ⟨?_, ?_, ?_, ?_, ?_, ?_⟩
  · intro h; simp [mha_fwd, h]
  · intro k hk; simp [mha_fwd, hk]
  · intro h; simp [mha_fwd_splitkv, h]
  · intro k hk; simp [mha_fwd_splitkv, hk]
  · intro h; simp [mha_batch_prefill, h]
  · intro k hk; simp [mha_batch_prefill, hk]

/-- C3 witness: on empty registries all three dispatchers return a
negative value; on matching one-entry registries each returns the
matched kernel's elapsed time (timing enabled). -/
theorem C3_return_value_trichotomy_witness :
    ((mha_fwd [] sampleArgs sampleSc "fp16" false sampleMask
        bias_enum.no_bias false sampleWorld).ret < 0 ∧
     (mha_fwd_splitkv [] sampleSplitkvArgs sampleSc "fp16" false
        sampleMask bias_enum.no_bias false sampleWorld).ret < 0 ∧
     (mha_batch_prefill [] samplePrefillArgs sampleSc "fp16" false
        sampleMask bias_enum.no_bias false sampleWorld).ret < 0) ∧
    ((mha_fwd sampleFwdReg sampleArgs sampleSc "fp16" false sampleMask
        bias_enum.no_bias false sampleWorld).ret = 7 ∧
     (mha_fwd_splitkv sampleSplitkvReg sampleSplitkvArgs sampleSc
        "fp16" false sampleMask bias_enum.no_bias false
        sampleWorld).ret = 7 ∧
     (mha_batch_prefill samplePrefillReg samplePrefillArgs sampleSc
        "fp16" false sampleMask bias_enum.no_bias false
        sampleWorld).ret = 7) := by
  have hmiss := C3_return_value_trichotomy [] [] [] sampleArgs
    sampleSplitkvArgs samplePrefillArgs sampleSc "fp16" false
    sampleMask bias_enum.no_bias false sampleWorld
  have hhit := C3_return_value_trichotomy sampleFwdReg samplePrefillReg
    sampleSplitkvReg sampleArgs sampleSplitkvArgs samplePrefillArgs
    sampleSc "fp16" false sampleMask bias_enum.no_bias false
    sampleWorld
  refine ⟨⟨hmiss.1 rfl, hmiss.2.2.1 rfl, hmiss.2.2.2.2.1 rfl⟩, ?_, ?_, ?_⟩
  · simpa using hhit.2.1 sampleKernel (by decide)
  · simpa using hhit.2.2.2.1 sampleKernel (by decide)
  · simpa using hhit.2.2.2.2.2 sampleKernel (by decide)

/-- C4: on a dispatch miss each dispatcher returns the negative
sentinel, forwards nothing to the kernel library, and leaves the
observable world (output buffers and stream submissions) exactly as it
was before the call. -/
theorem C4_miss_atomicity
    (freg preg : List (fmha_fwd_traits × Kernel))
    (sreg : List (fmha_fwd_splitkv_traits × Kernel))
    (a1 : fmha_fwd_args) (a2 : fmha_fwd_splitkv_args)
    (a3 : fmha_batch_prefill_args) (sc : stream_config) (dt : String)
    (gm : Bool) (m : mask_info) (b : bias_enum) (lse : Bool)
    (w : World) :
    (lookup_spec freg (fwd_key a1 dt gm m b lse) = none →
      (mha_fwd freg a1 sc dt gm m b lse w).ret < 0 ∧
      (mha_fwd freg a1 sc dt gm m b lse w).world = w ∧
      (mha_fwd freg a1 sc dt gm m b lse w).forwarded = none) ∧
    (lookup_spec sreg (splitkv_key a2 dt gm m b lse) = none →
      (mha_fwd_splitkv sreg a2 sc dt gm m b lse w).ret < 0 ∧
      (mha_fwd_splitkv sreg a2 sc dt gm m b lse w).world = w ∧
      (mha_fwd_splitkv sreg a2 sc dt gm m b lse w).forwarded = none) ∧
    (lookup_spec preg (prefill_key a3 dt gm m b lse) = none →
      (mha_batch_prefill preg a3 sc dt gm m b lse w).ret < 0 ∧
      (mha_batch_prefill preg a3 sc dt gm m b lse w).world = w ∧
      (mha_batch_prefill preg a3 sc dt gm m b lse w).forwarded = none) := by
  refine ⟨?_, ?_, ?_⟩
  · intro h; refine ⟨?_, ?_, ?_⟩ <;> simp [mha_fwd, h]
  · intro h; refine ⟨?_, ?_, ?_⟩ <;> simp [mha_fwd_splitkv, h]
  · intro h; refine ⟨?_, ?_, ?_⟩ <;> simp [mha_batch_prefill, h]

/-- C4 witness: with empty registries each dispatcher misses, returns
a negative value, forwards nothing, and leaves the world unchanged. -/
theorem C4_miss_atomicity_witness :
    ((mha_fwd [] sampleArgs sampleSc "fp16" false sampleMask
        bias_enum.no_bias false sampleWorld).ret < 0 ∧
     (mha_fwd [] sampleArgs sampleSc "fp16" false sampleMask
        bias_enum.no_bias false sampleWorld).world = sampleWorld ∧
     (mha_fwd [] sampleArgs sampleSc "fp16" false sampleMask
        bias_enum.no_bias false sampleWorld).forwarded = none) ∧
    ((mha_fwd_splitkv [] sampleSplitkvArgs sampleSc "fp16" false
        sampleMask bias_enum.no_bias false sampleWorld).ret < 0 ∧
     (mha_fwd_splitkv [] sampleSplitkvArgs sampleSc "fp16" false
        sampleMask bias_enum.no_bias false sampleWorld).world =
       sampleWorld ∧
     (mha_fwd_splitkv [] sampleSplitkvArgs sampleSc "fp16" false
        sampleMask bias_enum.no_bias false sampleWorld).forwarded =
       none) ∧
    ((mha_batch_prefill [] samplePrefillArgs sampleSc "fp16" false
        sampleMask bias_enum.no_bias false sampleWorld).ret < 0 ∧
     (mha_batch_prefill [] samplePrefillArgs sampleSc "fp16" false
        sampleMask bias_enum.no_bias false sampleWorld).world =
       sampleWorld ∧
     (mha_batch_prefill [] samplePrefillArgs sampleSc "fp16" false
        sampleMask bias_enum.no_bias false sampleWorld).forwarded =
       none) := by
  have h := C4_miss_atomicity [] [] [] sampleArgs sampleSplitkvArgs
    samplePrefillArgs sampleSc "fp16" false sampleMask
    bias_enum.no_bias false sampleWorld
  exact ⟨h.1 rfl, h.2.1 rfl, h.2.2 rfl⟩

/-- C5: specialization lookup is an exact match on the trait
discriminant tuple: an entry present in a duplicate-free registry is
selected exactly, and a trait absent from the key column misses — no
fallback to a near-matching specialization. -/
theorem C5_exact_match_or_miss (reg : List (fmha_fwd_traits × Kernel))
    (t : fmha_fwd_traits) (k : Kernel) :
    ((reg.map Prod.fst).Nodup → (t, k) ∈ reg →
      lookup_spec reg t = some k) ∧
    (t ∉ reg.map Prod.fst → lookup_spec reg t = none) :=
  ⟨fun hnd hmem => lookup_spec_of_mem hmem hnd,
   fun h => lookup_spec_eq_none h⟩

/-- C5 witness: in a two-entry registry the second key selects exactly
the second kernel, and a key differing only in head size misses. -/
theorem C5_exact_match_or_miss_witness :
    lookup_spec
      [(mha_fwd_traits 32 32 "fp16" false false sampleMask
          bias_enum.no_bias false false, ⟨1, 2, [3]⟩),
       (mha_fwd_traits 64 64 "fp16" false false sampleMask
          bias_enum.no_bias false false, sampleKernel)]
      (mha_fwd_traits 64 64 "fp16" false false sampleMask
        bias_enum.no_bias false false) = some sampleKernel ∧
    lookup_spec
      [(mha_fwd_traits 32 32 "fp16" false false sampleMask
          bias_enum.no_bias false false, ⟨1, 2, [3]⟩),
       (mha_fwd_traits 64 64 "fp16" false false sampleMask
          bias_enum.no_bias false false, sampleKernel)]
      (mha_fwd_traits 96 96 "fp16" false false sampleMask
        bias_enum.no_bias false false) = none := by
  constructor
  · exact (C5_exact_match_or_miss _ _ _).1 (by decide) (by decide)
  · exact (C5_exact_match_or_miss _ _ sampleKernel).2 (by decide)

/-- C6: trait construction is total and unvalidated — for arbitrary
head sizes and dtype strings both constructors produce exactly the
populated record — and an unbuilt combination is detected only at
dispatch time as a miss (negative return), never at construction. -/
theorem C6_unvalidated_construction_miss_at_dispatch (hq hv : Int)
    (dt : String) (gm cap : Bool) (m : mask_info) (b : bias_enum)
    (lse dp : Bool) :
    mha_fwd_traits hq hv dt gm cap m b lse dp =
      ⟨hq, hv, dt, gm, true, cap, m.type, b, lse, dp, false⟩ ∧
    mha_fwd_splitkv_traits hq hv dt gm cap m b lse =
      ⟨hq, hv, dt, gm, true, cap, m.type, b, lse, false⟩ ∧
    (∀ (reg : List (fmha_fwd_traits × Kernel)) (args : fmha_fwd_args)
        (sc : stream_config) (w : World),
      fwd_key args dt gm m b lse ∉ reg.map Prod.fst →
      (mha_fwd reg args sc dt gm m b lse w).ret < 0) := by
  refine ⟨rfl, rfl, fun reg args sc w h => ?_⟩
  simp [mha_fwd, lookup_spec_eq_none h]

/-- C6 witness: head size 77 and dtype "int4" are accepted by both
constructors (yielding the populated records), and dispatching that
combination against the built sample registry returns a negative
sentinel. -/
theorem C6_unvalidated_construction_miss_at_dispatch_witness :
    mha_fwd_traits 77 77 "int4" false false sampleMask
        bias_enum.no_bias false false =
      ⟨77, 77, "int4", false, true, false, mask_enum.mask_top_left,
       bias_enum.no_bias, false, false, false⟩ ∧
    mha_fwd_splitkv_traits 77 77 "int4" false false sampleMask
        bias_enum.no_bias false =
      ⟨77, 77, "int4", false, true, false, mask_enum.mask_top_left,
       bias_enum.no_bias, false, false⟩ ∧
    (mha_fwd sampleFwdReg ⟨77, 77, 0, 0, []⟩ sampleSc "int4" false
        sampleMask bias_enum.no_bias false sampleWorld).ret < 0 := by
  have h := C6_unvalidated_construction_miss_at_dispatch 77 77 "int4"
    false false sampleMask bias_enum.no_bias false false
  exact ⟨h.1, h.2.1,
    h.2.2 sampleFwdReg ⟨77, 77, 0, 0, []⟩ sampleSc sampleWorld
      (by decide)⟩

/-- C7: when the dtype string lies outside the recognized vocabulary,
each dispatcher — run against any registry built only from recognized
dtypes — returns the negative miss sentinel and launches nothing. -/
theorem C7_unknown_dtype_dispatch_miss
    (freg preg : List (fmha_fwd_traits × Kernel))
    (sreg : List (fmha_fwd_splitkv_traits × Kernel))
    (a1 : fmha_fwd_args) (a2 : fmha_fwd_splitkv_args)
    (a3 : fmha_batch_prefill_args) (sc : stream_config) (dt : String)
    (gm : Bool) (m : mask_info) (b : bias_enum) (lse : Bool)
    (w : World) (h1 : BuiltFwdRegistry freg)
    (h2 : BuiltSplitkvRegistry sreg) (h3 : BuiltFwdRegistry preg)
    (hdt : dt ∉ supported_dtypes) :
    ((mha_fwd freg a1 sc dt gm m b lse w).ret < 0 ∧
     (mha_fwd freg a1 sc dt gm m b lse w).world = w) ∧
    ((mha_fwd_splitkv sreg a2 sc dt gm m b lse w).ret < 0 ∧
     (mha_fwd_splitkv sreg a2 sc dt gm m b lse w).world = w) ∧
    ((mha_batch_prefill preg a3 sc dt gm m b lse w).ret < 0 ∧
     (mha_batch_prefill preg a3 sc dt gm m b lse w).world = w) := by
  have e1 : lookup_spec freg (fwd_key a1 dt gm m b lse) = none :=
    lookup_miss_of_key_filter fmha_fwd_traits.data_type h1 hdt
  have e2 : lookup_spec sreg (splitkv_key a2 dt gm m b lse) = none :=
    lookup_miss_of_key_filter fmha_fwd_splitkv_traits.data_type h2 hdt
  have e3 : lookup_spec preg (prefill_key a3 dt gm m b lse) = none :=
    lookup_miss_of_key_filter fmha_fwd_traits.data_type h3 hdt
  refine ⟨⟨?_, ?_⟩, ⟨?_, ?_⟩, ⟨?_, ?_⟩⟩
  · simp [mha_fwd, e1]
  · simp [mha_fwd, e1]
  · simp [mha_fwd_splitkv, e2]
  · simp [mha_fwd_splitkv, e2]
  · simp [mha_batch_prefill, e3]
  · simp [mha_batch_prefill, e3]

/-- C7 witness: with the fp16 sample registries and the unrecognized
dtype string "fp8", all three dispatchers return a negative value and
leave the world unchanged. -/
theorem C7_unknown_dtype_dispatch_miss_witness :
    ((mha_fwd sampleFwdReg sampleArgs sampleSc "fp8" false sampleMask
        bias_enum.no_bias false sampleWorld).ret < 0 ∧
     (mha_fwd sampleFwdReg sampleArgs sampleSc "fp8" false sampleMask
        bias_enum.no_bias false sampleWorld).world = sampleWorld) ∧
    ((mha_fwd_splitkv sampleSplitkvReg sampleSplitkvArgs sampleSc
        "fp8" false sampleMask bias_enum.no_bias false
        sampleWorld).ret < 0 ∧
     (mha_fwd_splitkv sampleSplitkvReg sampleSplitkvArgs sampleSc
        "fp8" false sampleMask bias_enum.no_bias false
        sampleWorld).world = sampleWorld) ∧
    ((mha_batch_prefill samplePrefillReg samplePrefillArgs sampleSc
        "fp8" false sampleMask bias_enum.no_bias false
        sampleWorld).ret < 0 ∧
     (mha_batch_prefill samplePrefillReg samplePrefillArgs sampleSc
        "fp8" false sampleMask bias_enum.no_bias false
        sampleWorld).world = sampleWorld) :=
  C7_unknown_dtype_dispatch_miss sampleFwdReg samplePrefillReg
    sampleSplitkvReg sampleArgs sampleSplitkvArgs samplePrefillArgs
    sampleSc "fp8" false sampleMask bias_enum.no_bias false
    sampleWorld (by decide) (by decide) (by decide) (by decide)

/-- C8: trait construction is deterministic and equality-respecting —
equal input tuples yield traits that compare equal and hash equal, for
both the forward and the split-KV constructor. -/
theorem C8_equal_inputs_equal_traits_and_hashes
    (hq1 hv1 : Int) (dt1 : String) (gm1 cap1 : Bool) (m1 : mask_info)
    (b1 : bias_enum) (lse1 dp1 : Bool)
    (hq2 hv2 : Int) (dt2 : String) (gm2 cap2 : Bool) (m2 : mask_info)
    (b2 : bias_enum) (lse2 dp2 : Bool)
    (h : (hq1, hv1, dt1, gm1, cap1, m1, b1, lse1, dp1) =
         (hq2, hv2, dt2, gm2, cap2, m2, b2, lse2, dp2)) :
    (mha_fwd_traits hq1 hv1 dt1 gm1 cap1 m1 b1 lse1 dp1 =
       mha_fwd_traits hq2 hv2 dt2 gm2 cap2 m2 b2 lse2 dp2 ∧
     traitHash (mha_fwd_traits hq1 hv1 dt1 gm1 cap1 m1 b1 lse1 dp1) =
       traitHash (mha_fwd_traits hq2 hv2 dt2 gm2 cap2 m2 b2 lse2 dp2)) ∧
    (mha_fwd_splitkv_traits hq1 hv1 dt1 gm1 cap1 m1 b1 lse1 =
       mha_fwd_splitkv_traits hq2 hv2 dt2 gm2 cap2 m2 b2 lse2 ∧
     splitkvTraitHash
         (mha_fwd_splitkv_traits hq1 hv1 dt1 gm1 cap1 m1 b1 lse1) =
       splitkvTraitHash
         (mha_fwd_splitkv_traits hq2 hv2 dt2 gm2 cap2 m2 b2 lse2)) := by
  simp only [Prod.mk.injEq] at h
  obtain ⟨e1, e2, e3, e4, e5, e6, e7, e8, e9⟩ := h
  subst e1; subst e2; subst e3; subst e4; subst e5
  subst e6; subst e7; subst e8; subst e9
  exact ⟨⟨rfl, rfl⟩, rfl, rfl⟩

/-- C8 witness: a concrete equal input pair yields equal traits and
equal hashes through both constructors. -/
theorem C8_equal_inputs_equal_traits_and_hashes_witness :
    (mha_fwd_traits 64 128 "bf16" true true sampleMask
        bias_enum.alibi true false =
       mha_fwd_traits 64 128 "bf16" true true sampleMask
        bias_enum.alibi true false ∧
     traitHash (mha_fwd_traits 64 128 "bf16" true true sampleMask
        bias_enum.alibi true false) =
       traitHash (mha_fwd_traits 64 128 "bf16" true true sampleMask
        bias_enum.alibi true false)) ∧
    (mha_fwd_splitkv_traits 64 128 "bf16" true true sampleMask
        bias_enum.alibi true =
       mha_fwd_splitkv_traits 64 128 "bf16" true true sampleMask
        bias_enum.alibi true ∧
     splitkvTraitHash (mha_fwd_splitkv_traits 64 128 "bf16" true true
        sampleMask bias_enum.alibi true) =
       splitkvTraitHash (mha_fwd_splitkv_traits 64 128 "bf16" true
        true sampleMask bias_enum.alibi true)) :=
  C8_equal_inputs_equal_traits_and_hashes 64 128 "bf16" true true
    sampleMask bias_enum.alibi true false 64 128 "bf16" true true
    sampleMask bias_enum.alibi true false rfl

/-- C9: the facade's argument-bundle types are exact aliases of the
upstream types; a dispatch call leaves the caller's argument bundle
and stream/timing configuration unchanged, forwards the bundle to the
kernel library unmodified when it forwards at all, and the observable
world changes only through the launched kernel (it is untouched on a
miss). -/
theorem C9_frame_and_exact_passthrough
    (freg preg : List (fmha_fwd_traits × Kernel))
    (sreg : List (fmha_fwd_splitkv_traits × Kernel))
    (a1 : fmha_fwd_args) (a2 : fmha_fwd_splitkv_args)
    (a3 : fmha_batch_prefill_args) (sc : stream_config) (dt : String)
    (gm : Bool) (m : mask_info) (b : bias_enum) (lse : Bool)
    (w : World) :
    (mha_fwd_args = fmha_fwd_args ∧
     mha_fwd_splitkv_args = fmha_fwd_splitkv_args ∧
     mha_batch_prefill_args = fmha_batch_prefill_args) ∧
    ((mha_fwd freg a1 sc dt gm m b lse w).args_after = a1 ∧
     (mha_fwd freg a1 sc dt gm m b lse w).sc_after = sc ∧
     (∀ x, (mha_fwd freg a1 sc dt gm m b lse w).forwarded = some x →
       x = a1) ∧
     ((mha_fwd freg a1 sc dt gm m b lse w).world = w ∨
      ∃ k, lookup_spec freg (fwd_key a1 dt gm m b lse) = some k ∧
        (mha_fwd freg a1 sc dt gm m b lse w).world =
          runKernel k sc.stream_id w)) ∧
    ((mha_fwd_splitkv sreg a2 sc dt gm m b lse w).args_after = a2 ∧
     (mha_fwd_splitkv sreg a2 sc dt gm m b lse w).sc_after = sc ∧
     (∀ x, (mha_fwd_splitkv sreg a2 sc dt gm m b lse w).forwarded =
         some x → x = a2) ∧
     ((mha_fwd_splitkv sreg a2 sc dt gm m b lse w).world = w ∨
      ∃ k, lookup_spec sreg (splitkv_key a2 dt gm m b lse) = some k ∧
        (mha_fwd_splitkv sreg a2 sc dt gm m b lse w).world =
          runKernel k sc.stream_id w)) ∧
    ((mha_batch_prefill preg a3 sc dt gm m b lse w).args_after = a3 ∧
     (mha_batch_prefill preg a3 sc dt gm m b lse w).sc_after = sc ∧
     (∀ x, (mha_batch_prefill preg a3 sc dt gm m b lse w).forwarded =
         some x → x = a3) ∧
     ((mha_batch_prefill preg a3 sc dt gm m b lse w).world = w ∨
      ∃ k, lookup_spec preg (prefill_key a3 dt gm m b lse) = some k ∧
        (mha_batch_prefill preg a3 sc dt gm m b lse w).world =
          runKernel k sc.stream_id w)) := by
  refine ⟨⟨rfl, rfl, rfl⟩, ⟨?_, ?_, ?_, ?_⟩, ⟨?_, ?_, ?_, ?_⟩,
    ⟨?_, ?_, ?_, ?_⟩⟩
  · cases hlk : lookup_spec freg (fwd_key a1 dt gm m b lse) <;>
      simp [mha_fwd, hlk]
  · cases hlk : lookup_spec freg (fwd_key a1 dt gm m b lse) <;>
      simp [mha_fwd, hlk]
  · intro x hx
    cases hlk : lookup_spec freg (fwd_key a1 dt gm m b lse) <;>
      simp [mha_fwd, hlk] at hx
    exact hx.symm
  · cases hlk : lookup_spec freg (fwd_key a1 dt gm m b lse) with
    | none => exact Or.inl (by simp [mha_fwd, hlk])
    | some k => exact Or.inr ⟨k, rfl, by simp [mha_fwd, hlk]⟩
  · cases hlk : lookup_spec sreg (splitkv_key a2 dt gm m b lse) <;>
      simp [mha_fwd_splitkv, hlk]
  · cases hlk : lookup_spec sreg (splitkv_key a2 dt gm m b lse) <;>
      simp [mha_fwd_splitkv, hlk]
  · intro x hx
    cases hlk : lookup_spec sreg (splitkv_key a2 dt gm m b lse) <;>
      simp [mha_fwd_splitkv, hlk] at hx
    exact hx.symm
  · cases hlk : lookup_spec sreg (splitkv_key a2 dt gm m b lse) with
    | none => exact Or.inl (by simp [mha_fwd_splitkv, hlk])
    | some k => exact Or.inr ⟨k, rfl, by simp [mha_fwd_splitkv, hlk]⟩
  · cases hlk : lookup_spec preg (prefill_key a3 dt gm m b lse) <;>
      simp [mha_batch_prefill, hlk]
  · cases hlk : lookup_spec preg (prefill_key a3 dt gm m b lse) <;>
      simp [mha_batch_prefill, hlk]
  · intro x hx
    cases hlk : lookup_spec preg (prefill_key a3 dt gm m b lse) <;>
      simp [mha_batch_prefill, hlk] at hx
    exact hx.symm
  · cases hlk : lookup_spec preg (prefill_key a3 dt gm m b lse) with
    | none => exact Or.inl (by simp [mha_batch_prefill, hlk])
    | some k => exact Or.inr ⟨k, rfl, by simp [mha_batch_prefill, hlk]⟩

/-- C9 witness: on the matching sample registries the forward
dispatcher leaves the caller's bundle and stream configuration as
supplied and forwards exactly the caller's bundle; the same concrete
instantiation discharges the forwarded-bundle hypothesis for all
three dispatchers. -/
theorem C9_frame_and_exact_passthrough_witness :
    mha_fwd_args = fmha_fwd_args ∧
    (mha_fwd sampleFwdReg sampleArgs sampleSc "fp16" false sampleMask
        bias_enum.no_bias false sampleWorld).args_after = sampleArgs ∧
    (mha_fwd sampleFwdReg sampleArgs sampleSc "fp16" false sampleMask
        bias_enum.no_bias false sampleWorld).sc_after = sampleSc ∧
    sampleArgs = sampleArgs ∧ sampleSplitkvArgs = sampleSplitkvArgs ∧
    samplePrefillArgs = samplePrefillArgs := by
  have h := C9_frame_and_exact_passthrough sampleFwdReg
    samplePrefillReg sampleSplitkvReg sampleArgs sampleSplitkvArgs
    samplePrefillArgs sampleSc "fp16" false sampleMask
    bias_enum.no_bias false sampleWorld
  refine ⟨h.1.1, h.2.1.1, h.2.1.2.1, ?_, ?_, ?_⟩
  · exact h.2.1.2.2.1 sampleArgs (by decide)
  · exact h.2.2.1.2.2.1 sampleSplitkvArgs (by decide)
  · exact h.2.2.2.2.2.1 samplePrefillArgs (by decide)

end Aiter
